import Mathlib

/-!
Verification of `src/monitoring/performance_monitor.py` (class `PerformanceMonitor`).

Shallow embedding conventions:
* Python `int` counters are modelled as `ℤ` (memory byte counts, which the
  source always treats as non-negative sizes, as `ℕ`).
* Python `float` arithmetic is modelled exactly over `ℚ`; `round(x, 2)` is
  modelled as rounding `x * 100` to the nearest integer and dividing by `100`.
* Fallible external calls (docker client, HTTP probe) are modelled by explicit
  outcome types; a `try/except` body that may raise is modelled in `Except`.
* The stateful monitor object is modelled by explicit state passing
  (`MonitorState`); file writes are modelled as a returned list of write events.
-/

namespace PerfMon

/-- `round(x, 2)` of the source, over exact rationals: round to 2 decimals by
rounding `q * 100` to the nearest integer (exact half-way ties, which for the
source's binary floats depend on the representation, are modelled as
rounding up). -/
def round2 (q : ℚ) : ℚ := (⌊q * 100 + 1 / 2⌋ : ℤ) / 100

/-- The counter-to-rate conversion of `get_container_stats`
(`performance_monitor.py` lines 65-73): `cpu_delta` and `system_delta` are the
differences of the cumulative counters; if `system_delta > 0` the result is
`(cpu_delta / system_delta) * cores * 100`, otherwise the initial `0.0`. -/
def calc_cpu_percent (cpu_now cpu_prev sys_now sys_prev : ℤ) (cores : ℕ) : ℚ :=
  let cpu_delta : ℤ := cpu_now - cpu_prev
  let system_delta : ℤ := sys_now - sys_prev
  if 0 < system_delta then
    ((cpu_delta : ℚ) / (system_delta : ℚ)) * (cores : ℚ) * 100
  else 0

/-- The raw statistics snapshot returned by `container.stats(stream=False)`,
restricted to the fields the source reads. -/
structure RawCounterSnapshot where
  cpu_total_usage : ℤ
  precpu_total_usage : ℤ
  system_cpu_usage : ℤ
  pre_system_cpu_usage : ℤ
  percpu_usage : List ℤ
  memory_usage : ℕ
  memory_limit : ℕ
deriving DecidableEq

/-- The dictionary returned by a successful `get_container_stats` call
(lines 80-87), before `collect_metrics` adds the `healthy` key. -/
structure ContainerStats where
  container_name : String
  cpu_percent : ℚ
  memory_usage_mb : ℚ
  memory_percent : ℚ
  status : String
  timestamp : String
deriving DecidableEq

/-- Outcome of the docker lookup `self.client.containers.get(name)` together
with the stats read: the container may be missing (`docker.errors.NotFound`),
the client may raise some other exception, or a raw snapshot plus the
container's lifecycle status string is obtained. -/
inductive FetchOutcome where
  | notFound
  | fetchError
  | ok (raw : RawCounterSnapshot) (status : String)

/-- The body of the `try` block of `get_container_stats` (lines 61-87) after a
successful stats read.  Python raises `ZeroDivisionError` on
`memory_usage / memory_limit` when `memory_limit == 0`; the raise is modelled
in `Except`. -/
def statsBody (container_name : String) (raw : RawCounterSnapshot)
    (status now : String) : Except String ContainerStats :=
  let cpu_percent := calc_cpu_percent raw.cpu_total_usage raw.precpu_total_usage
      raw.system_cpu_usage raw.pre_system_cpu_usage raw.percpu_usage.length
  if raw.memory_limit = 0 then
    Except.error "ZeroDivisionError"
  else
    Except.ok
      { container_name := container_name
        cpu_percent := round2 cpu_percent
        memory_usage_mb := round2 ((raw.memory_usage : ℚ) / (1024 * 1024))
        memory_percent := round2 (((raw.memory_usage : ℚ) / (raw.memory_limit : ℚ)) * 100)
        status := status
        timestamp := now }

/-- `get_container_stats` (lines 50-93): any exception raised in the body —
`docker.errors.NotFound`, any other client error, or the `ZeroDivisionError`
from the memory computation — is caught and turned into `None`. -/
def get_container_stats (container_name : String) (outcome : FetchOutcome)
    (now : String) : Option ContainerStats :=
  match outcome with
  | FetchOutcome.ok raw status => (statsBody container_name raw status now).toOption
  | FetchOutcome.notFound => Option.none
  | FetchOutcome.fetchError => Option.none

/-- Result of `requests.get(url, timeout=5)` as observed by
`check_container_health`: either a response with a status code arrived within
the timeout, or the call raised (connection error, timeout, ...). -/
inductive ProbeResult where
  | response (status_code : Nat)
  | failure
deriving DecidableEq

/-- `check_container_health` (lines 95-110): `True` exactly when the GET
completed and `response.status_code == 200`; every raised exception is caught
and collapsed to `False`. -/
def check_container_health (r : ProbeResult) : Bool :=
  match r with
  | ProbeResult.response s => s == 200
  | ProbeResult.failure => false

/-- Modelled from the spec: the spec's phrase "a success status code" for the
Target Prober, read as the HTTP success class 2xx.  Used only to compare the
spec's wording with the source's `status_code == 200` check. -/
def isSuccessStatus (s : Nat) : Bool := 200 ≤ s && s < 300

/-- The dictionary returned by `get_system_stats` (lines 119-124). -/
structure HostRecord where
  system_cpu_percent : ℚ
  system_memory_percent : ℚ
  system_memory_available_gb : ℚ
  timestamp : String
deriving DecidableEq

/-- A value of the `metrics['containers']` map: the stats dictionary with the
`healthy` key added by `collect_metrics` (line 138). -/
structure ContainerRecord where
  stats : ContainerStats
  healthy : Bool
deriving DecidableEq

/-- One `metrics` dictionary appended to `self.data` (lines 129-141); the
association list models the `containers` dict in insertion order.  The host
record is a single fixed field, so every snapshot carries exactly one. -/
structure Snapshot where
  timestamp : String
  system : HostRecord
  containers : List (String × ContainerRecord)
deriving DecidableEq

/-- `collect_metrics` (lines 126-141): build the tick's snapshot from the
configured `(name, url)` targets.  `getStats` is the result of
`get_container_stats` for each name and `checkHealth` the result of
`check_container_health` for each `(name, url)`; a target is inserted into
`containers` only when its stats dictionary is present (the `if
container_stats:` truthiness test — the dictionary, when returned, is
non-empty, so truthiness coincides with presence). -/
def collect_metrics (targets : List (String × String))
    (getStats : String → Option ContainerStats)
    (checkHealth : String → String → Bool)
    (system : HostRecord) (now : String) : Snapshot :=
  { timestamp := now
    system := system
    containers := targets.filterMap fun p =>
      match getStats p.1 with
      | some stats => some (p.1, { stats := stats, healthy := checkHealth p.1 p.2 })
      | Option.none => Option.none }

/-- One row of the flattened (CSV) representation built in `save_data`
(lines 175-193). -/
structure CsvRow where
  timestamp : String
  system_cpu_percent : ℚ
  system_memory_percent : ℚ
  system_memory_available_gb : ℚ
  container_name : String
  container_cpu_percent : ℚ
  container_memory_usage_mb : ℚ
  container_memory_percent : ℚ
  container_healthy : Bool
  container_status : String
deriving DecidableEq

/-- The row built for one `(snapshot, present target)` pair: `base_row`
(host fields copied from the snapshot) updated with the container columns. -/
def rowOf (entry : Snapshot) (container_name : String) (rec : ContainerRecord) : CsvRow :=
  { timestamp := entry.timestamp
    system_cpu_percent := entry.system.system_cpu_percent
    system_memory_percent := entry.system.system_memory_percent
    system_memory_available_gb := entry.system.system_memory_available_gb
    container_name := container_name
    container_cpu_percent := rec.stats.cpu_percent
    container_memory_usage_mb := rec.stats.memory_usage_mb
    container_memory_percent := rec.stats.memory_percent
    container_healthy := rec.healthy
    container_status := rec.stats.status }

/-- The flattening loop of `save_data` (lines 173-193): one row per present
target of each snapshot.  (The inner `if stats:` guard re-tests truthiness of
a container value; values stored by `collect_metrics` are non-empty
dictionaries, modelled as always-present records.) -/
def flatten_data (data : List Snapshot) : List CsvRow :=
  data.flatMap fun entry => entry.containers.map fun p => rowOf entry p.1 p.2

/-- The mutable fields of the `PerformanceMonitor` object that the claims
touch. -/
structure MonitorState where
  interval : Nat
  data : List Snapshot
  running : Bool
deriving DecidableEq

/-- A file write performed by `save_data`: the JSON dump of the whole series,
or the CSV dump of the flattened rows. -/
inductive FileWrite where
  | jsonFile (path : String) (content : List Snapshot)
  | csvFile (path : String) (content : List CsvRow)
deriving DecidableEq

/-- `save_data` (lines 153-203), as a state transformer returning the
post-state, the file writes performed, and the returned value.  The Python
returns are modelled as: bare `return` (empty series) ↦ `none`;
`return None, json_path` ↦ `some (none, json_path)`;
`return csv_path, json_path` ↦ `some (some csv_path, json_path)`.
`nowStamp` is `datetime.now().strftime('%Y%m%d_%H%M%S')`. -/
def save_data (s : MonitorState) (filename : Option String) (nowStamp : String) :
    MonitorState × List FileWrite × Option (Option String × String) :=
  match s.data with
  | [] => (s, [], Option.none)
  | _ =>
    let fname := filename.getD ("performance_data_" ++ nowStamp)
    let json_path := "/app/data/" ++ fname ++ ".json"
    let rows := flatten_data s.data
    match rows with
    | [] => (s, [FileWrite.jsonFile json_path s.data], some (Option.none, json_path))
    | _ =>
      let csv_path := "/app/data/" ++ fname ++ ".csv"
      (s, [FileWrite.jsonFile json_path s.data, FileWrite.csvFile csv_path rows],
        some (some csv_path, json_path))

/-- The asynchronous events that can end a run of `start_monitoring`:
`SIGINT`/`SIGTERM` delivered (handled by `signal_handler`) when `k` ticks have
completed, or an unhandled exception raised inside the `k`-th
`collect_metrics`.  `noInterrupt` is an undisturbed run. -/
inductive Interrupt where
  | noInterrupt
  | signalAtTick (k : Nat)
  | faultAtTick (k : Nat)
deriving DecidableEq

/-- How a run of `start_monitoring` ended. -/
inductive ExitCause where
  | completed
  | signaled
  | faulted
deriving DecidableEq

/-- Observable outcome of one run of `start_monitoring`: completed
`collect_metrics` calls, number of `save_data` invocations, and the exit
path taken. -/
structure RunOutcome where
  ticks : Nat
  saveCalls : Nat
  cause : ExitCause
deriving DecidableEq

/-- The `if duration and (time.time() - start_time) >= duration` test of
line 223: Python truthiness makes `duration=None` and `duration=0` both skip
the break. -/
def durationElapsed (duration : Option Nat) (elapsed : Nat) : Bool :=
  match duration with
  | some d => d ≠ 0 && decide (d ≤ elapsed)
  | Option.none => false

/-- Effect of an interrupt firing when `k` ticks have completed.
A signal runs `signal_handler` (lines 43-48): `running = False`, one
`save_data` call, then `sys.exit(0)`; the raised `SystemExit` is not caught by
the `except KeyboardInterrupt` clause, so the `finally` of `start_monitoring`
(lines 231-233) runs `save_data` a second time — two invocations in total.
An unhandled fault propagates out of `collect_metrics`; only the `finally`
runs `save_data` — one invocation. -/
def interruptNow (intr : Interrupt) (k : Nat) : Option RunOutcome :=
  match intr with
  | Interrupt.signalAtTick j =>
      if j = k then some ⟨k, 2, ExitCause.signaled⟩ else Option.none
  | Interrupt.faultAtTick j =>
      if j = k then some ⟨k, 1, ExitCause.faulted⟩ else Option.none
  | Interrupt.noInterrupt => Option.none

/-- The `while self.running` loop of `start_monitoring` (lines 219-233),
idealized as in the spec: ticks are instantaneous and `time.sleep(interval)`
advances time exactly, so the tick beginning at time `t` observes
`time.time() - start_time = t` at the duration check.  `t` is the current
elapsed time, `k` the ticks completed so far, `fuel` a bound on iterations
(`none` marks a run still going, e.g. an unbounded run).  On a normal break
and on every other exit path the `finally` invokes `save_data` exactly once;
interrupts are delegated to `interruptNow`. -/
def runLoop (interval : Nat) (duration : Option Nat) (intr : Interrupt) :
    Nat → Nat → Nat → Option RunOutcome
  | 0, _, _ => Option.none
  | fuel + 1, t, k =>
    match interruptNow intr k with
    | some o => some o
    | Option.none =>
      if durationElapsed duration t then some ⟨k + 1, 1, ExitCause.completed⟩
      else runLoop interval duration intr fuel (t + interval) (k + 1)

/-- Fixture per-target stats dictionary for concrete instances. -/
def sampleStats : ContainerStats :=
  { container_name := "node-nextjs-app", cpu_percent := 40, memory_usage_mb := 1
    memory_percent := 50, status := "running", timestamp := "t0" }

/-- Fixture container record (stats plus `healthy`). -/
def sampleRecord : ContainerRecord := { stats := sampleStats, healthy := true }

/-- Fixture host record. -/
def sampleHost : HostRecord :=
  { system_cpu_percent := 12, system_memory_percent := 34
    system_memory_available_gb := 5, timestamp := "t0" }

/-- Fixture snapshot with a single present target. -/
def sampleSnap : Snapshot :=
  { timestamp := "t0", system := sampleHost
    containers := [("node-nextjs-app", sampleRecord)] }

theorem round2_zero : round2 0 = 0 := by norm_num [round2]

theorem round2_nonneg {q : ℚ} (hq : 0 ≤ q) : 0 ≤ round2 q := by
  have h100 : (0 : ℚ) ≤ q * 100 + 1 / 2 := by positivity
  have hfl : (0 : ℤ) ≤ ⌊q * 100 + 1 / 2⌋ := Int.floor_nonneg.mpr h100
  unfold round2
  positivity

/-- C3: for all non-negative counter inputs with
`system_delta = system_usage_now - system_usage_prev ≤ 0`, the counter-to-rate
conversion returns exactly `0.0` (and so does its 2-decimal rounding used in
the reported record). -/
theorem converter_zero_on_nonpos_system_delta
    (cpu_now cpu_prev sys_now sys_prev : ℤ) (cores : ℕ)
    (h1 : 0 ≤ cpu_now) (h2 : 0 ≤ cpu_prev) (h3 : 0 ≤ sys_now) (h4 : 0 ≤ sys_prev)
    (hd : sys_now - sys_prev ≤ 0) :
    calc_cpu_percent cpu_now cpu_prev sys_now sys_prev cores = 0 ∧
    round2 (calc_cpu_percent cpu_now cpu_prev sys_now sys_prev cores) = 0 := by
  have hz : calc_cpu_percent cpu_now cpu_prev sys_now sys_prev cores = 0 := by
    unfold calc_cpu_percent
    simp only []
    rw [if_neg (not_lt.mpr hd)]
  exact ⟨hz, by rw [hz]; exact round2_zero⟩

theorem converter_zero_on_nonpos_system_delta_witness :
    calc_cpu_percent 7 3 5 5 4 = 0 ∧ round2 (calc_cpu_percent 7 3 5 5 4) = 0 :=
  converter_zero_on_nonpos_system_delta 7 3 5 5 4 (by decide) (by decide)
    (by decide) (by decide) (by decide)

/-- C4: for counters with `system_delta > 0`, the `cpu_percent` reported in the
per-target record equals `round((cpu_delta/system_delta)*cores*100, 2)` where
`cores` is the length of `percpu_usage` in the raw snapshot, and it is
non-negative whenever `cpu_delta ≥ 0`. -/
theorem converter_output_on_pos_system_delta
    (name status now : String) (raw : RawCounterSnapshot)
    (hpos : 0 < raw.system_cpu_usage - raw.pre_system_cpu_usage)
    (hm : raw.memory_limit ≠ 0) :
    ∃ rec, get_container_stats name (FetchOutcome.ok raw status) now = some rec ∧
      rec.cpu_percent =
        round2 (((raw.cpu_total_usage - raw.precpu_total_usage : ℤ) : ℚ) /
          ((raw.system_cpu_usage - raw.pre_system_cpu_usage : ℤ) : ℚ) *
          (raw.percpu_usage.length : ℚ) * 100) ∧
      (0 ≤ raw.cpu_total_usage - raw.precpu_total_usage → 0 ≤ rec.cpu_percent) := by
  have hcalc : calc_cpu_percent raw.cpu_total_usage raw.precpu_total_usage
      raw.system_cpu_usage raw.pre_system_cpu_usage raw.percpu_usage.length =
      ((raw.cpu_total_usage - raw.precpu_total_usage : ℤ) : ℚ) /
        ((raw.system_cpu_usage - raw.pre_system_cpu_usage : ℤ) : ℚ) *
        (raw.percpu_usage.length : ℚ) * 100 := by
    unfold calc_cpu_percent
    simp only []
    rw [if_pos hpos]
  refine ⟨{ container_name := name
            cpu_percent := round2 (calc_cpu_percent raw.cpu_total_usage
              raw.precpu_total_usage raw.system_cpu_usage raw.pre_system_cpu_usage
              raw.percpu_usage.length)
            memory_usage_mb := round2 ((raw.memory_usage : ℚ) / (1024 * 1024))
            memory_percent := round2 (((raw.memory_usage : ℚ) / (raw.memory_limit : ℚ)) * 100)
            status := status
            timestamp := now }, ?_, ?_, ?_⟩
  · simp [get_container_stats, statsBody, hm, Except.toOption]
  · exact congrArg round2 hcalc
  · intro hcd
    rw [hcalc]
    apply round2_nonneg
    have hsd : (0 : ℚ) < ((raw.system_cpu_usage - raw.pre_system_cpu_usage : ℤ) : ℚ) := by
      exact_mod_cast hpos
    have hcd' : (0 : ℚ) ≤ ((raw.cpu_total_usage - raw.precpu_total_usage : ℤ) : ℚ) := by
      exact_mod_cast hcd
    positivity

/-- Concrete run of C4: counters (30, 10, 100, 0), two cores, a 1 MiB usage
against a 2 MiB limit. -/
theorem converter_output_on_pos_system_delta_witness :
    ∃ rec, get_container_stats "c"
        (FetchOutcome.ok (RawCounterSnapshot.mk 30 10 100 0 [0, 0] 1048576 2097152) "running")
        "t" = some rec ∧
      rec.cpu_percent =
        round2 ((((RawCounterSnapshot.mk 30 10 100 0 ([0, 0] : List ℤ) 1048576
            2097152).cpu_total_usage -
          (RawCounterSnapshot.mk 30 10 100 0 ([0, 0] : List ℤ) 1048576
            2097152).precpu_total_usage : ℤ) : ℚ) /
          (((RawCounterSnapshot.mk 30 10 100 0 ([0, 0] : List ℤ) 1048576
            2097152).system_cpu_usage -
          (RawCounterSnapshot.mk 30 10 100 0 ([0, 0] : List ℤ) 1048576
            2097152).pre_system_cpu_usage : ℤ) : ℚ) *
          ((RawCounterSnapshot.mk 30 10 100 0 ([0, 0] : List ℤ) 1048576
            2097152).percpu_usage.length : ℚ) * 100) ∧
      (0 ≤ (RawCounterSnapshot.mk 30 10 100 0 ([0, 0] : List ℤ) 1048576
            2097152).cpu_total_usage -
          (RawCounterSnapshot.mk 30 10 100 0 ([0, 0] : List ℤ) 1048576
            2097152).precpu_total_usage → 0 ≤ rec.cpu_percent) :=
  converter_output_on_pos_system_delta "c" "running" "t"
    (RawCounterSnapshot.mk 30 10 100 0 [0, 0] 1048576 2097152) (by decide) (by decide)

/-- C10: the per-target stats fetcher is total at its interface: a missing
container, any other client error, and a derivation error — in particular the
`ZeroDivisionError` raised when the raw snapshot reports `memory_limit = 0` —
all yield `None` rather than an exception propagating to `collect_metrics`. -/
theorem get_container_stats_total
    (name status now : String) (raw : RawCounterSnapshot)
    (hm : raw.memory_limit = 0) :
    get_container_stats name (FetchOutcome.ok raw status) now = Option.none ∧
    get_container_stats name FetchOutcome.notFound now = Option.none ∧
    get_container_stats name FetchOutcome.fetchError now = Option.none := by
  refine ⟨?_, rfl, rfl⟩
  unfold get_container_stats statsBody
  simp [hm, Except.toOption]

/-- Helper: a target name is a key of the `containers` map built by the
assembler's filter exactly when it is a configured target whose stats fetch
returned a dictionary. -/
theorem mem_assembled_containers (targets : List (String × String))
    (getStats : String → Option ContainerStats)
    (checkHealth : String → String → Bool) (name : String) :
    (name ∈ (targets.filterMap fun p =>
      match getStats p.1 with
      | some stats => some (p.1, ContainerRecord.mk stats (checkHealth p.1 p.2))
      | Option.none => Option.none).map Prod.fst) ↔
    (name ∈ targets.map Prod.fst ∧ (getStats name).isSome) := by
  induction targets with
  | nil => simp
  | cons hd tl ih =>
    cases hG : getStats hd.1 with
    | none =>
      rw [List.filterMap_cons]
      simp only [hG]
      rw [ih]
      by_cases hn : name = hd.1
      · subst hn
        simp [hG]
      · simp [hn]
    | some s =>
      rw [List.filterMap_cons]
      simp only [hG]
      by_cases hn : name = hd.1
      · subst hn
        simp [hG]
      · simp only [List.map_cons, List.mem_cons, hn, false_or, ih, List.map_cons]

/-- C5: the snapshot built for one tick carries the host record exactly once
(the single `system` field, equal to the host stats fetched that tick), and
has a `containers` entry for a target name iff that target is configured and
its stats fetch succeeded that tick; failed targets are omitted entirely. -/
theorem snapshot_entry_iff_fetch_success (targets : List (String × String))
    (getStats : String → Option ContainerStats)
    (checkHealth : String → String → Bool)
    (system : HostRecord) (now : String) :
    (collect_metrics targets getStats checkHealth system now).system = system ∧
    ∀ name,
      (name ∈ (collect_metrics targets getStats checkHealth system now).containers.map
        Prod.fst) ↔
      (name ∈ targets.map Prod.fst ∧ (getStats name).isSome) :=
  ⟨rfl, fun name => mem_assembled_containers targets getStats checkHealth name⟩

/-- C6: flattening a series of `S` snapshots with `k_i` present targets in
snapshot `i` yields `Σ k_i` rows, and every row is the `base_row`-derived row
of the snapshot it came from, with the four host columns equal to that
snapshot's host record fields. -/
theorem flatten_row_count_and_host_fields (data : List Snapshot) :
    (flatten_data data).length = (data.map fun e => e.containers.length).sum ∧
    ∀ r ∈ flatten_data data, ∃ e ∈ data, ∃ p ∈ e.containers,
      r = rowOf e p.1 p.2 ∧
      r.timestamp = e.timestamp ∧
      r.system_cpu_percent = e.system.system_cpu_percent ∧
      r.system_memory_percent = e.system.system_memory_percent ∧
      r.system_memory_available_gb = e.system.system_memory_available_gb := by
  constructor
  · induction data with
    | nil => rfl
    | cons e tl ih =>
      simp only [flatten_data, List.flatMap_cons, List.length_append,
        List.length_map, List.map_cons, List.sum_cons] at ih ⊢
      omega
  · intro r hr
    simp only [flatten_data, List.mem_flatMap, List.mem_map] at hr
    obtain ⟨e, he, p, hp, rfl⟩ := hr
    exact ⟨e, he, p, hp, rfl, rfl, rfl, rfl, rfl⟩

theorem flatten_row_count_and_host_fields_witness :
    ((flatten_data [sampleSnap]).length =
      ([sampleSnap].map fun e => e.containers.length).sum) ∧
    (∃ e ∈ [sampleSnap], ∃ p ∈ e.containers,
      rowOf sampleSnap "node-nextjs-app" sampleRecord = rowOf e p.1 p.2 ∧
      (rowOf sampleSnap "node-nextjs-app" sampleRecord).timestamp = e.timestamp ∧
      (rowOf sampleSnap "node-nextjs-app" sampleRecord).system_cpu_percent =
        e.system.system_cpu_percent ∧
      (rowOf sampleSnap "node-nextjs-app" sampleRecord).system_memory_percent =
        e.system.system_memory_percent ∧
      (rowOf sampleSnap "node-nextjs-app" sampleRecord).system_memory_available_gb =
        e.system.system_memory_available_gb) :=
  ⟨(flatten_row_count_and_host_fields [sampleSnap]).1,
    (flatten_row_count_and_host_fields [sampleSnap]).2
      (rowOf sampleSnap "node-nextjs-app" sampleRecord) (List.Mem.head _)⟩

/-- C7: flushing with an empty series performs no file write, leaves the state
unchanged, and returns the null result (the source's bare `return`), i.e. no
path for either output. -/
theorem empty_series_flush_no_write (s : MonitorState) (filename : Option String)
    (nowStamp : String) (h : s.data = []) :
    save_data s filename nowStamp = (s, [], Option.none) := by
  unfold save_data
  rw [h]

theorem empty_series_flush_no_write_witness :
    save_data (MonitorState.mk 10 [] false) Option.none "20250101_000000" =
      (MonitorState.mk 10 [] false, [], Option.none) :=
  empty_series_flush_no_write (MonitorState.mk 10 [] false) Option.none
    "20250101_000000" rfl

/-- C9: `save_data` never mutates the monitor state — in particular the series
`self.data` is exactly what it was before the call — so a second flush with no
intervening ticks produces the same writes and result again. -/
theorem save_data_preserves_series (s : MonitorState) (filename : Option String)
    (nowStamp : String) :
    (save_data s filename nowStamp).1 = s ∧
    save_data (save_data s filename nowStamp).1 filename nowStamp =
      save_data s filename nowStamp := by
  have h1 : (save_data s filename nowStamp).1 = s := by
    unfold save_data
    cases hd : s.data with
    | nil => rfl
    | cons a l =>
      cases hr : flatten_data (a :: l) with
      | nil => rfl
      | cons b m => rfl
  exact ⟨h1, by rw [h1]⟩

/-- C8 as written fails on the code: `204 No Content` is an HTTP success
status code arriving within the timeout, yet `check_container_health` returns
`False` because the source tests `status_code == 200` specifically. -/
theorem prober_success_status_counterexample :
    isSuccessStatus 204 = true ∧
    check_container_health (ProbeResult.response 204) = false := by decide

/-- C8 amended: the prober returns `True` iff the HTTP GET returns status code
exactly `200` within the timeout; any exception, timeout, or other status —
including other 2xx codes — yields `False`, and the prober never raises to its
caller (it is a total function into `Bool`). -/
theorem prober_true_iff_status_200 (r : ProbeResult) :
    check_container_health r = true ↔ r = ProbeResult.response 200 := by
  cases r with
  | response s => simp [check_container_health]
  | failure => simp [check_container_health]

/-- Helper for C1: outcomes produced directly by an interrupt. -/
theorem interruptNow_spec (intr : Interrupt) (k : Nat) (o : RunOutcome)
    (h : interruptNow intr k = some o) :
    o.saveCalls = (if o.cause = ExitCause.signaled then 2 else 1) ∧
    (∀ j, intr = Interrupt.signalAtTick j → o.ticks = j ∧
      o.cause = ExitCause.signaled) := by
  cases intr with
  | signalAtTick j =>
    simp only [interruptNow] at h
    by_cases hj : j = k
    · rw [if_pos hj] at h
      injection h with h
      subst h
      refine ⟨rfl, fun j' hj' => ?_⟩
      injection hj' with hjj
      subst hjj
      exact ⟨hj.symm, rfl⟩
    · rw [if_neg hj] at h
      exact Option.noConfusion h
  | faultAtTick j =>
    simp only [interruptNow] at h
    by_cases hj : j = k
    · rw [if_pos hj] at h
      injection h with h
      subst h
      exact ⟨rfl, fun j' hj' => Interrupt.noConfusion hj'⟩
    · rw [if_neg hj] at h
      exact Option.noConfusion h
  | noInterrupt => exact Option.noConfusion h

/-- C1 as written fails on the code: a `SIGINT`/`SIGTERM` arriving mid-loop
before any tick completed causes TWO `save_data` invocations, not one — the
handler flushes and calls `sys.exit(0)`, and the raised `SystemExit` then runs
the `finally` block of `start_monitoring`, which flushes again. -/
theorem signal_double_flush_counterexample :
    runLoop 10 (some 30) (Interrupt.signalAtTick 0) 10 0 0 =
      some (RunOutcome.mk 0 2 ExitCause.signaled) ∧
    (RunOutcome.mk 0 2 ExitCause.signaled).saveCalls ≠ 1 := by decide

/-- C1 amended: on every exit path of a terminating run the series save is
invoked at least once and further ticks halt — a signal after `j` completed
ticks (even `j = 0`) stops the loop at exactly `j` ticks — but the number of
save invocations is exactly one only on the normal-completion and
unhandled-fault paths; on the termination-signal path it is exactly two (the
signal handler's flush plus the `finally` flush triggered by `sys.exit`). -/
theorem flush_on_every_exit_path (interval : Nat) (duration : Option Nat)
    (intr : Interrupt) (fuel t k : Nat) (o : RunOutcome)
    (h : runLoop interval duration intr fuel t k = some o) :
    1 ≤ o.saveCalls ∧
    o.saveCalls = (if o.cause = ExitCause.signaled then 2 else 1) ∧
    (∀ j, intr = Interrupt.signalAtTick j → o.cause = ExitCause.signaled →
      o.ticks = j) := by
  induction fuel generalizing t k with
  | zero => simp [runLoop] at h
  | succ n ih =>
    rw [runLoop] at h
    cases hI : interruptNow intr k with
    | some o' =>
      rw [hI] at h
      simp only [Option.some_inj] at h
      subst h
      obtain ⟨h1, h2⟩ := interruptNow_spec intr k o' hI
      refine ⟨?_, h1, fun j hj _ => (h2 j hj).1⟩
      rw [h1]
      split <;> omega
    | none =>
      rw [hI] at h
      by_cases hd : durationElapsed duration t
      · rw [if_pos hd] at h
        simp only [Option.some_inj] at h
        subst h
        refine ⟨by exact Nat.le_refl 1, by simp, fun j hj hc => ?_⟩
        simp at hc
      · rw [if_neg hd] at h
        exact ih _ _ h

theorem flush_on_every_exit_path_witness :
    1 ≤ (RunOutcome.mk 0 2 ExitCause.signaled).saveCalls ∧
    (RunOutcome.mk 0 2 ExitCause.signaled).saveCalls =
      (if (RunOutcome.mk 0 2 ExitCause.signaled).cause = ExitCause.signaled
        then 2 else 1) ∧
    (∀ j, Interrupt.signalAtTick 0 = Interrupt.signalAtTick j →
      (RunOutcome.mk 0 2 ExitCause.signaled).cause = ExitCause.signaled →
      (RunOutcome.mk 0 2 ExitCause.signaled).ticks = j) :=
  flush_on_every_exit_path 10 (some 30) (Interrupt.signalAtTick 0) 10 0 0
    (RunOutcome.mk 0 2 ExitCause.signaled) (by decide)

/-- C2 as written fails on the code: with `duration=30`, `interval=10` and the
claim's own idealized timing (instantaneous ticks at t=0,10,20,...), the
duration check after the 3rd tick sees `elapsed = 20 < 30` and does NOT end
the loop; the run performs 4 ticks, not 3. -/
theorem three_ticks_counterexample :
    (runLoop 10 (some 30) Interrupt.noInterrupt 10 0 0).map RunOutcome.ticks ≠
      some 3 := by decide

/-- C2 amended: starting the monitor with `duration=30` and `interval=10`
(idealized instantaneous ticks) performs exactly 4 ticks, at t=0,10,20,30 —
the duration check after the 4th tick, with `elapsed = 30 ≥ 30`, ends the
loop — and then flushes exactly once. -/
theorem four_ticks_for_duration30_interval10 :
    runLoop 10 (some 30) Interrupt.noInterrupt 10 0 0 =
      some (RunOutcome.mk 4 1 ExitCause.completed) := by decide

theorem get_container_stats_total_witness :
    get_container_stats "c"
      (FetchOutcome.ok (RawCounterSnapshot.mk 30 10 100 0 [0, 0] 1048576 0) "running") "t" =
      Option.none ∧
    get_container_stats "c" FetchOutcome.notFound "t" = Option.none ∧
    get_container_stats "c" FetchOutcome.fetchError "t" = Option.none :=
  get_container_stats_total "c" "running" "t"
    (RawCounterSnapshot.mk 30 10 100 0 [0, 0] 1048576 0) (by decide)

end PerfMon
